import Mathlib

/-!
Verification of the Ruby binding layer in
`src/bindings/ruby/sfml-window/window/Window.cpp` (rbSFML).

The file is a shallow embedding of the C binding functions.  Ruby `VALUE`s
are modelled by the inductive `RValue`; a heap object carries its unwrapped
C payload directly (the `Data_Get_Struct` pointer).  `rb_raise` performs a
longjmp out of the binding, so a raising path is modelled as an `Outcome.err`
that carries no library-call effects; undefined behaviour (null dereference,
out-of-bounds argv read) is modelled as `Outcome.crash`.  Calls into the
wrapped SFML library are recorded as an effect trace.
-/

/-- Ruby classes that appear in the binding file. -/
inductive RClass where
  | windowClass
  | videoModeClass
  | stringClass
  | fixnumClass
  | contextSettingsClass
  | eventClass
  | inputClass
  | arrayClass
  | nilClass
  | trueClass
  | falseClass
  | floatClass
deriving DecidableEq, Repr

/-- `sf::VideoMode` payload (width, height, bits per pixel). -/
structure VideoMode where
  width : Nat
  height : Nat
  bitsPerPixel : Nat
deriving DecidableEq, Repr

/-- `sf::ContextSettings` payload. -/
structure ContextSettings where
  depthBits : Nat
  stencilBits : Nat
  antialiasingLevel : Nat
  majorVersion : Nat
  minorVersion : Nat
deriving DecidableEq, Repr

/-- An `sf::Event` value: the `Type` field plus the union payload, modelled
opaquely as a number (the binding copies the whole struct verbatim with
`*rubyRawEvent = event`, so its internal layout never matters here). -/
structure SfEvent where
  eventType : Nat
  payload : Nat
deriving DecidableEq, Repr

/-- Ruby `VALUE`s as far as the binding file inspects them. -/
inductive RValue where
  | qnil
  | qtrue
  | qfalse
  | fixnum (n : Int)
  | rstring (s : String)
  | rarray (elems : List RValue)
  | videoModeObj (m : VideoMode)
  | contextSettingsObj (c : ContextSettings)
  | eventObj (e : SfEvent)
deriving Repr

mutual

/-- Boolean equality on `RValue` (the derive handler does not support the
nested `List RValue`, so it is spelled out). -/
def RValue.beq : RValue → RValue → Bool
  | .qnil, .qnil => true
  | .qtrue, .qtrue => true
  | .qfalse, .qfalse => true
  | .fixnum a, .fixnum b => a == b
  | .rstring a, .rstring b => a == b
  | .rarray a, .rarray b => RValue.beqList a b
  | .videoModeObj a, .videoModeObj b => a == b
  | .contextSettingsObj a, .contextSettingsObj b => a == b
  | .eventObj a, .eventObj b => a == b
  | _, _ => false

/-- Boolean equality on lists of `RValue`. -/
def RValue.beqList : List RValue → List RValue → Bool
  | [], [] => true
  | a :: as, b :: bs => RValue.beq a b && RValue.beqList as bs
  | _, _ => false

end

mutual

theorem RValue.beq_refl : ∀ a : RValue, RValue.beq a a = true
  | .qnil | .qtrue | .qfalse => rfl
  | .fixnum a => by simp [RValue.beq]
  | .rstring a => by simp [RValue.beq]
  | .rarray a => by simp [RValue.beq, RValue.beqList_refl a]
  | .videoModeObj a => by simp [RValue.beq]
  | .contextSettingsObj a => by simp [RValue.beq]
  | .eventObj a => by simp [RValue.beq]

theorem RValue.beqList_refl : ∀ as : List RValue, RValue.beqList as as = true
  | [] => rfl
  | a :: as => by simp [RValue.beqList, RValue.beq_refl a, RValue.beqList_refl as]

end

mutual

theorem RValue.eq_of_beq : ∀ {a b : RValue}, RValue.beq a b = true → a = b
  | .qnil, .qnil, _ | .qtrue, .qtrue, _ | .qfalse, .qfalse, _ => rfl
  | .fixnum a, .fixnum b, h => by simpa [RValue.beq] using h
  | .rstring a, .rstring b, h => by simpa [RValue.beq] using h
  | .rarray a, .rarray b, h => by
      simp only [RValue.beq] at h
      exact congrArg RValue.rarray (RValue.eqList_of_beq h)
  | .videoModeObj a, .videoModeObj b, h => by simpa [RValue.beq] using h
  | .contextSettingsObj a, .contextSettingsObj b, h => by simpa [RValue.beq] using h
  | .eventObj a, .eventObj b, h => by simpa [RValue.beq] using h

theorem RValue.eqList_of_beq : ∀ {as bs : List RValue}, RValue.beqList as bs = true → as = bs
  | [], [], _ => rfl
  | a :: as, b :: bs, h => by
      simp only [RValue.beqList, Bool.and_eq_true] at h
      rw [RValue.eq_of_beq h.1, RValue.eqList_of_beq h.2]

end

instance : DecidableEq RValue := fun a b =>
  if h : RValue.beq a b = true then .isTrue (RValue.eq_of_beq h)
  else .isFalse (fun e => h (e ▸ RValue.beq_refl a))

/-- `CLASS_OF`. -/
def CLASS_OF : RValue → RClass
  | .qnil => .nilClass
  | .qtrue => .trueClass
  | .qfalse => .falseClass
  | .fixnum _ => .fixnumClass
  | .rstring _ => .stringClass
  | .rarray _ => .arrayClass
  | .videoModeObj _ => .videoModeClass
  | .contextSettingsObj _ => .contextSettingsClass
  | .eventObj _ => .eventClass

/-- `rb_funcall( type, rb_intern( "to_s" ), 0 )`: the name of a class.
The SFML classes are defined with `rb_define_class_under( GetNamespace(), ... )`
under the `SFML` module (see the doc comment of the source, which names them
`SFML::VideoMode`, `SFML::ContextSettings`, ...). -/
def RClass.toS : RClass → String
  | .windowClass => "SFML::Window"
  | .videoModeClass => "SFML::VideoMode"
  | .stringClass => "String"
  | .fixnumClass => "Fixnum"
  | .contextSettingsClass => "SFML::ContextSettings"
  | .eventClass => "SFML::Event"
  | .inputClass => "SFML::Input"
  | .arrayClass => "Array"
  | .nilClass => "NilClass"
  | .trueClass => "TrueClass"
  | .falseClass => "FalseClass"
  | .floatClass => "Float"

/-- Ruby exceptions raised by the binding (`rb_raise`). -/
inductive RubyError where
  | typeError (msg : String)
  | argError (msg : String)
  | rangeError (msg : String)
  | noMethodError (msg : String)
deriving DecidableEq, Repr

/-- Calls into the wrapped library and memory events, recorded as a trace.
`constructWindow*` is `new sf::Window(...)` (allocation plus constructor),
`create*` is `object->Create(...)`; the numeric suffix is the C++ overload
arity used by the binding. -/
inductive Effect where
  | constructWindow2 (mode : VideoMode) (title : String)
  | constructWindow3 (mode : VideoMode) (title : String) (style : Nat)
  | constructWindow4 (mode : VideoMode) (title : String) (style : Nat) (settings : ContextSettings)
  | create2 (mode : VideoMode) (title : String)
  | create3 (mode : VideoMode) (title : String) (style : Nat)
  | create4 (mode : VideoMode) (title : String) (style : Nat) (settings : ContextSettings)
  | display
  | enableKeyRepeat (b : Bool)
  | setActive (b : Bool)
  | show (b : Bool)
  | setCursorPosition (x y : Nat)
  | setFramerateLimit (limit : Nat)
  | setIcon (w h : Nat) (pixelData : List Nat)
  | setJoystickTreshold (rawValueBits : Nat)
  | setPosition (x y : Nat)
  | setSize (w h : Nat)
  | setTitle (t : String)
  | allocBytes (n : Nat)
  | freeBytes
  | deleteWindow
deriving DecidableEq, Repr

/-- Result of one binding call: normal return with its trace of library
calls, a Ruby exception (`rb_raise` longjmps out, so no further effects
happen on that path), or undefined behaviour. -/
inductive Outcome (α : Type) where
  | ok (effects : List Effect) (val : α)
  | err (e : RubyError)
  | crash (reason : String)
deriving DecidableEq, Repr

/-- The free functions this file ever registers with `Data_Wrap_Struct`. -/
inductive FreeFn where
  | windowFree
deriving DecidableEq, Repr

/-- What a `Data_Wrap_Struct` result points at. -/
inductive WrappedPtr where
  | freshWindow
  | inputOf (window : Nat)
  | settingsOf (window : Nat)
deriving DecidableEq, Repr

/-- A `Data_Wrap_Struct` result: class, mark slot, free slot, payload
pointer.  The source passes `0` for an absent mark/free function. -/
structure Wrapped where
  klass : RClass
  mark : Option FreeFn
  free : Option FreeFn
  ptr : WrappedPtr
deriving DecidableEq, Repr

/-- Garbage collection of a wrapper runs its registered free function,
if any (a wrapper with free slot `0` is collected without any callback). -/
def finalizeWrapped (w : Wrapped) : List FreeFn :=
  match w.free with
  | some f => [f]
  | none => []

/-- `Window_Free`: `delete anObject`. -/
def Window_Free : List Effect := [.deleteWindow]

/-- What finalizing a wrapper deletes: each registered free function of this
file is `Window_Free`, a single `delete`. -/
def runFreeFn : FreeFn → List Effect
  | .windowFree => Window_Free

/-- `FIX2UINT` on a Fixnum: untag (`RSHIFT((long)x,1)` recovers the signed
value), then convert through `unsigned long` and `unsigned int`; no range
check and no raise, the net effect is reduction modulo `2^32`.  The macro
applied to a heap `VALUE` would read the pointer's bits; no claim exercises
that, and this pointer-free model returns 0 there. -/
def FIX2UINT (v : RValue) : Nat :=
  match v with
  | .fixnum n => (n % (2 ^ 32)).toNat
  | _ => 0

/-- `NUM2INT`: exact on a Fixnum that fits a C `int`, `RangeError` outside
that range, `TypeError` on a non-numeric value.  (The raising branches are
never reached by the theorems below; their message strings are summaries.) -/
def NUM2INT (v : RValue) : Except RubyError Int :=
  match v with
  | .fixnum n =>
      if -(2 ^ 31) ≤ n ∧ n < 2 ^ 31 then .ok n
      else .error (.rangeError "integer out of int range")
  | _ => .error (.typeError "no implicit conversion into Integer")

/-- `NUM2CHR`: first byte of a nonempty String, otherwise
`(char)(NUM2INT(x) & 0xff)`, i.e. the integer value reduced modulo 256. -/
def NUM2CHR (v : RValue) : Except RubyError Nat :=
  match v with
  | .rstring s =>
      match s.data with
      | c :: _ => .ok (c.toNat % 256)
      | [] => (NUM2INT (.rstring s)).map (fun n => ((n % 256).toNat))
  | w => (NUM2INT w).map (fun n => ((n % 256).toNat))

/-- `STR2CSTR` on a value already validated to be a String. -/
def getCString (v : RValue) : Option String :=
  match v with
  | .rstring s => some s
  | _ => none

/-- `Data_Get_Struct(v, sf::VideoMode, mode)`. -/
def dataGetVideoMode (v : RValue) : Option VideoMode :=
  match v with
  | .videoModeObj m => some m
  | _ => none

/-- `Data_Get_Struct(v, sf::ContextSettings, settings)`. -/
def dataGetContextSettings (v : RValue) : Option ContextSettings :=
  match v with
  | .contextSettingsObj c => some c
  | _ => none

/-- The `VALIDATE_CLASS( variable, type, name )` macro as a check: `none`
when the class matches, otherwise the `TypeError` it raises. -/
def validateCheck (v : RValue) (t : RClass) (nm : String) : Option RubyError :=
  if CLASS_OF v = t then none
  else some (.typeError (nm ++ " argument must be instance of " ++ t.toS))

/-- `Window_Create`: switch on `argc`; each arity validates the argument
classes in order with `VALIDATE_CLASS` before extracting payloads and making
the single `object->Create(...)` call; any other arity raises `ArgError`.
The `self` window object is left implicit: the trace records the calls made
on it. -/
def Window_Create (args : List RValue) : Outcome RValue :=
  match args with
  | [a0, a1] =>
      match validateCheck a0 .videoModeClass "first" with
      | some e => .err e
      | none =>
      match validateCheck a1 .stringClass "second" with
      | some e => .err e
      | none =>
      match dataGetVideoMode a0, getCString a1 with
      | some mode, some title => .ok [.create2 mode title] .qnil
      | _, _ => .crash "Data_Get_Struct on value of unexpected layout"
  | [a0, a1, a2] =>
      match validateCheck a0 .videoModeClass "first" with
      | some e => .err e
      | none =>
      match validateCheck a1 .stringClass "second" with
      | some e => .err e
      | none =>
      match validateCheck a2 .fixnumClass "third" with
      | some e => .err e
      | none =>
      match dataGetVideoMode a0, getCString a1 with
      | some mode, some title => .ok [.create3 mode title (FIX2UINT a2)] .qnil
      | _, _ => .crash "Data_Get_Struct on value of unexpected layout"
  | [a0, a1, a2, a3] =>
      match validateCheck a0 .videoModeClass "first" with
      | some e => .err e
      | none =>
      match validateCheck a1 .stringClass "second" with
      | some e => .err e
      | none =>
      match validateCheck a2 .fixnumClass "third" with
      | some e => .err e
      | none =>
      match validateCheck a3 .contextSettingsClass "fourth" with
      | some e => .err e
      | none =>
      match dataGetVideoMode a0, getCString a1, dataGetContextSettings a3 with
      | some mode, some title, some settings =>
          .ok [.create4 mode title (FIX2UINT a2) settings] .qnil
      | _, _, _ => .crash "Data_Get_Struct on value of unexpected layout"
  | other =>
      .err (.argError ("Expected 2..4 arguments but was given " ++ toString other.length))

/-- `Window_New`: switch on `argc`.  `case 0` runs
`object = new sf::Window( *mode , STR2CSTR( args[1] ) )` with `mode` still
`NULL` and `args` empty, i.e. a null dereference and an out-of-bounds argv
read; arities 2..4 validate, construct the window, and wrap the object with
`Data_Wrap_Struct( aKlass, 0, Window_Free, object )`; every other arity
raises `ArgError`. -/
def Window_New (args : List RValue) : Outcome Wrapped :=
  match args with
  | [] => .crash "case 0 dereferences the null VideoMode pointer and reads args[1] out of bounds"
  | [a0, a1] =>
      match validateCheck a0 .videoModeClass "first" with
      | some e => .err e
      | none =>
      match validateCheck a1 .stringClass "second" with
      | some e => .err e
      | none =>
      match dataGetVideoMode a0, getCString a1 with
      | some mode, some title =>
          .ok [.constructWindow2 mode title]
            { klass := .windowClass, mark := none, free := some .windowFree, ptr := .freshWindow }
      | _, _ => .crash "Data_Get_Struct on value of unexpected layout"
  | [a0, a1, a2] =>
      match validateCheck a0 .videoModeClass "first" with
      | some e => .err e
      | none =>
      match validateCheck a1 .stringClass "second" with
      | some e => .err e
      | none =>
      match validateCheck a2 .fixnumClass "third" with
      | some e => .err e
      | none =>
      match dataGetVideoMode a0, getCString a1 with
      | some mode, some title =>
          .ok [.constructWindow3 mode title (FIX2UINT a2)]
            { klass := .windowClass, mark := none, free := some .windowFree, ptr := .freshWindow }
      | _, _ => .crash "Data_Get_Struct on value of unexpected layout"
  | [a0, a1, a2, a3] =>
      match validateCheck a0 .videoModeClass "first" with
      | some e => .err e
      | none =>
      match validateCheck a1 .stringClass "second" with
      | some e => .err e
      | none =>
      match validateCheck a2 .fixnumClass "third" with
      | some e => .err e
      | none =>
      match validateCheck a3 .contextSettingsClass "fourth" with
      | some e => .err e
      | none =>
      match dataGetVideoMode a0, getCString a1, dataGetContextSettings a3 with
      | some mode, some title, some settings =>
          .ok [.constructWindow4 mode title (FIX2UINT a2) settings]
            { klass := .windowClass, mark := none, free := some .windowFree, ptr := .freshWindow }
      | _, _, _ => .crash "Data_Get_Struct on value of unexpected layout"
  | other =>
      .err (.argError ("Expected 2..4 arguments but was given " ++ toString other.length))

/-- `Window_Display`. -/
def Window_Display : Outcome RValue := .ok [.display] .qnil

/-- `Window_EnableKeyRepeat`: compares the `VALUE` against `Qfalse`, then
`Qtrue`, else raises `TypeError`. -/
def Window_EnableKeyRepeat (anEnableFlag : RValue) : Outcome RValue :=
  match anEnableFlag with
  | .qfalse => .ok [.enableKeyRepeat false] .qnil
  | .qtrue => .ok [.enableKeyRepeat true] .qnil
  | _ => .err (.typeError "Expected true or false")

/-- `Window_SetActive`: same shape as `Window_EnableKeyRepeat`. -/
def Window_SetActive (anActiveFlag : RValue) : Outcome RValue :=
  match anActiveFlag with
  | .qfalse => .ok [.setActive false] .qnil
  | .qtrue => .ok [.setActive true] .qnil
  | _ => .err (.typeError "Expected true or false")

/-- `Window_Show`: same shape as `Window_EnableKeyRepeat`. -/
def Window_Show (aShowFlag : RValue) : Outcome RValue :=
  match aShowFlag with
  | .qfalse => .ok [.show false] .qnil
  | .qtrue => .ok [.show true] .qnil
  | _ => .err (.typeError "Expected true or false")

/-- `Window_GetEvent`.  The library's poll `window->GetEvent( event )` is the
parameter: `none` means it returned `false` with the event untouched, `some e`
means it returned `true` having filled in `e`.  On `true` the binding builds
a new `SFML::Event` via `rb_funcall( globalEventClass, "new", 1,
INT2FIX( event.Type ) )` and then overwrites the wrapped raw struct with the
whole polled event (`*rubyRawEvent = event`), so the returned object carries
exactly `e`. -/
def Window_GetEvent (pollResult : Option SfEvent) : RValue :=
  match pollResult with
  | some e => .eventObj e
  | none => .qnil

/-- `Window_GetInput`: wraps `&object->GetInput()` (owned by the window,
whose identity is `self`) with `Data_Wrap_Struct( globalInputClass, 0, 0, ...)`
— no mark and no free function. -/
def Window_GetInput (self : Nat) : Wrapped :=
  { klass := .inputClass, mark := none, free := none, ptr := .inputOf self }

/-- `Window_GetSettings`: wraps `&object->GetSettings()` with
`Data_Wrap_Struct( globalContextSettingsClass, 0, 0, ...)`. -/
def Window_GetSettings (self : Nat) : Wrapped :=
  { klass := .contextSettingsClass, mark := none, free := none, ptr := .settingsOf self }

/-- `Window_SetCursorPosition`: `object->SetCursorPosition( FIX2UINT( aX ),
FIX2UINT( aY ) )`. -/
def Window_SetCursorPosition (aX aY : RValue) : Outcome RValue :=
  .ok [.setCursorPosition (FIX2UINT aX) (FIX2UINT aY)] .qnil

/-- `Window_SetFramerateLimit`: `object->SetFramerateLimit( FIX2UINT( aLimit ) )`. -/
def Window_SetFramerateLimit (aLimit : RValue) : Outcome RValue :=
  .ok [.setFramerateLimit (FIX2UINT aLimit)] .qnil

/-- `Window_SetPosition`: `object->SetPosition( FIX2UINT( aX ), FIX2UINT( aY ) )`. -/
def Window_SetPosition (aX aY : RValue) : Outcome RValue :=
  .ok [.setPosition (FIX2UINT aX) (FIX2UINT aY)] .qnil

/-- `Window_SetSize`: `object->SetSize( FIX2UINT( aWidth ), FIX2UINT( aHeight ) )`. -/
def Window_SetSize (aWidth aHeight : RValue) : Outcome RValue :=
  .ok [.setSize (FIX2UINT aWidth) (FIX2UINT aHeight)] .qnil

/-- `Window_SetTitle`: `object->SetTitle( STR2CSTR( aTitle ) )`; `STR2CSTR`
raises `TypeError` on a non-String. -/
def Window_SetTitle (aTitle : RValue) : Outcome RValue :=
  match getCString aTitle with
  | some t => .ok [.setTitle t] .qnil
  | none => .err (.typeError "no implicit conversion into String")

mutual

/-- One element of Ruby `Array#flatten`: an array contributes its recursive
flattening, any other value contributes itself. -/
def rflattenElem : RValue → List RValue
  | .rarray xs => rflattenList xs
  | v => [v]

/-- `Array#flatten` over the element list of an array. -/
def rflattenList : List RValue → List RValue
  | [] => []
  | x :: xs => rflattenElem x ++ rflattenList xs

end

/-- `rb_funcall( somePixels, rb_intern("flatten"), 0 )`: defined on an
Array; any other receiver raises `NoMethodError`. -/
def rbFlatten (v : RValue) : Except RubyError (List RValue) :=
  match v with
  | .rarray xs => .ok (rflattenList xs)
  | _ => .error (.noMethodError "undefined method flatten")

/-- `rb_ary_entry( pixels, index )`: `Qnil` past the end. -/
def rbAryEntry (xs : List RValue) (i : Nat) : RValue :=
  xs.getD i .qnil

/-- The `for( index = 0; index < dataSize; index++ )` loop body of
`Window_SetIcon`: `tempData[index] = NUM2CHR( rb_ary_entry( pixels, index ) )`.
`fillIcon flat idx n` produces the bytes for indices `idx, idx+1, ...,
idx+n-1`; a raise from `NUM2CHR` aborts the loop. -/
def fillIcon (flat : List RValue) (idx : Nat) : Nat → Except RubyError (List Nat)
  | 0 => .ok []
  | n + 1 =>
      match NUM2CHR (rbAryEntry flat idx) with
      | .error e => .error e
      | .ok b =>
          match fillIcon flat (idx + 1) n with
          | .error e => .error e
          | .ok rest => .ok (b :: rest)

/-- `Window_SetIcon`: computes `dataSize = rawWidth * rawHeight * 4` in
`unsigned int` arithmetic (both factors are `unsigned int`, so the product
wraps modulo `2^32` before widening to `unsigned long`), allocates the
temporary byte buffer, flattens the pixel argument, fills the buffer with
`NUM2CHR` of each entry, forwards `object->SetIcon( rawWidth, rawHeight,
tempData )`, and `delete[]`s the buffer.  A raise leaves the buffer
allocated and unfreed (the longjmp skips `delete[]`). -/
def Window_SetIcon (aWidth aHeight somePixels : RValue) : List Effect × Option RubyError :=
  let rawWidth := FIX2UINT aWidth
  let rawHeight := FIX2UINT aHeight
  let dataSize := rawWidth * rawHeight * 4 % 2 ^ 32
  match rbFlatten somePixels with
  | .error e => ([.allocBytes dataSize], some e)
  | .ok flat =>
      match fillIcon flat 0 dataSize with
      | .error e => ([.allocBytes dataSize], some e)
      | .ok buf => ([.allocBytes dataSize, .setIcon rawWidth rawHeight buf, .freeBytes], none)

/-- The Ruby interpreter heap, as far as `rb_float_new` needs it: the next
free object slot. -/
structure Heap where
  nextAddr : Nat
deriving DecidableEq, Repr

/-- `rb_float_new( d )`: allocates a fresh `Float` object on the Ruby heap
and returns its `VALUE`, i.e. the address of the new object — not `d`. -/
def rb_float_new (h : Heap) (_d : Int) : Heap × Nat :=
  ({ nextAddr := h.nextAddr + 40 }, h.nextAddr)

/-- The bit pattern of a `VALUE` for the immediates (Ruby 1.8/1.9 tagging:
`Qfalse = 0`, `Qtrue = 2`, `Qnil = 4`, Fixnum `n` is `2n+1` in 64-bit
two's complement).  Heap objects carry their address, which this heap-free
model does not track; no theorem applies it to one. -/
def valueBits : RValue → Nat
  | .qfalse => 0
  | .qtrue => 2
  | .qnil => 4
  | .fixnum n => ((2 * n + 1) % (2 ^ 64)).toNat
  | _ => 0

/-- `Window_SetJoystickTreshold`:
`object->SetJoystickTreshold( rb_float_new( aTreshold ) )`.  The argument of
`rb_float_new` is the raw `VALUE` bits of `aTreshold` implicitly converted
to `double`; the `VALUE` it returns (the address of the fresh `Float`
object) is then implicitly converted to `float` and passed as the threshold.
The trace records the raw bits handed to the library. -/
def Window_SetJoystickTreshold (h : Heap) (aTreshold : RValue) : Heap × Outcome RValue :=
  let res := rb_float_new h (Int.ofNat (valueBits aTreshold))
  (res.1, .ok [.setJoystickTreshold res.2] .qnil)

/-- Kinds of method registration used by `Init_Window`. -/
inductive MethodKind where
  | singletonMethod
  | instanceMethod
deriving DecidableEq, Repr

/-- One `rb_define_*_method` registration. -/
structure RegisteredMethod where
  name : String
  kind : MethodKind
deriving DecidableEq, Repr

/-- `Init_Window`: defines the class and registers its methods.  The body
registers exactly one method, the singleton `"new"` bound to `Window_New`;
the `// Instance methods` and `// Aliases` sections are empty. -/
def Init_Window_registrations : List RegisteredMethod :=
  [{ name := "new", kind := .singletonMethod }]

/-- Operation names the specification lists as forwarded to the library
(stated from the spec's wording, to compare against what `Init_Window`
actually registers). -/
def specForwardedOps : List String :=
  ["create", "display", "getEvent", "getWidth", "getHeight", "setPosition",
   "setSize", "setTitle", "setIcon", "setCursorPosition", "setFramerateLimit",
   "setActive", "getInput", "setJoystickTreshold"]

/-- The expected class and positional name of each `Window_Create` /
`Window_New` argument, in order. -/
def createExpected : List (RClass × String) :=
  [(.videoModeClass, "first"), (.stringClass, "second"),
   (.fixnumClass, "third"), (.contextSettingsClass, "fourth")]

/-- The first position whose argument fails its `VALIDATE_CLASS` check,
with the expected class and the positional name used in the message. -/
def firstMismatch : List RValue → List (RClass × String) → Option (RClass × String)
  | a :: as, (c, nm) :: es =>
      if CLASS_OF a = c then firstMismatch as es else some (c, nm)
  | _, _ => none

/-- Is an effect a `new sf::Window(...)` allocation? -/
def isWindowAlloc : Effect → Bool
  | .constructWindow2 _ _ => true
  | .constructWindow3 _ _ _ => true
  | .constructWindow4 _ _ _ _ => true
  | _ => false

/-- Number of native window allocations in a trace. -/
def countWindowAllocs (fx : List Effect) : Nat :=
  (fx.filter isWindowAlloc).length

/-- C1: the claim says both `Window_New` and `Window_Create` raise
`ArgError` ("Expected 2..4 arguments but was given %d") for every argument
count outside 2..4, with no call into the library.  `Window_Create` does,
but `Window_New` has a `case 0` that bypasses the guard: with zero
arguments it runs `new sf::Window( *mode, STR2CSTR( args[1] ) )` on the
still-null `mode` pointer and an out-of-bounds `args[1]`, instead of
raising. -/
theorem windowNew_argcZero_bypasses_arity_guard :
    Window_New [] =
      Outcome.crash "case 0 dereferences the null VideoMode pointer and reads args[1] out of bounds" ∧
    Window_New [RValue.qnil] =
      Outcome.err (RubyError.argError "Expected 2..4 arguments but was given 1") ∧
    ∀ args : List RValue, args.length ≠ 2 → args.length ≠ 3 → args.length ≠ 4 →
      Window_Create args =
        Outcome.err (RubyError.argError ("Expected 2..4 arguments but was given " ++ toString args.length)) := by
  refine ⟨rfl, rfl, ?_⟩
  intro args h2 h3 h4
  match args with
  | [] => rfl
  | [_] => rfl
  | [_, _] => exact absurd rfl h2
  | [_, _, _] => exact absurd rfl h3
  | [_, _, _, _] => exact absurd rfl h4
  | _ :: _ :: _ :: _ :: _ :: _ => rfl

/-- Witness for C1's `Window_Create` part at the concrete argument count 5. -/
theorem windowNew_argcZero_bypasses_arity_guard_witness :
    Window_Create [RValue.qnil, RValue.qnil, RValue.qnil, RValue.qnil, RValue.qnil] =
      Outcome.err (RubyError.argError ("Expected 2..4 arguments but was given " ++
        toString [RValue.qnil, RValue.qnil, RValue.qnil, RValue.qnil, RValue.qnil].length)) :=
  windowNew_argcZero_bypasses_arity_guard.2.2 _ (by decide) (by decide) (by decide)

/-- C2: the claim says `Init_Window` registers a method for every forwarded
operation the spec lists.  In fact the only registration in `Init_Window`
is the singleton method `"new"`; the `// Instance methods` section is
empty, so none of the listed operations is invocable. -/
theorem initWindow_registers_only_new :
    Init_Window_registrations.map (fun m => m.name) = ["new"] ∧
    Init_Window_registrations.filter (fun m => m.kind == MethodKind.instanceMethod) = [] ∧
    specForwardedOps.all
      (fun nm => !(Init_Window_registrations.any (fun m => m.name == nm))) = true := by
  refine ⟨rfl, rfl, ?_⟩
  decide

/-- C3: the claim says `setJoystickThreshold` passes the numeric value of
its argument to the library.  The code instead calls
`object->SetJoystickTreshold( rb_float_new( aTreshold ) )`: `rb_float_new`
allocates a fresh Ruby `Float` object and returns its `VALUE` (a heap
address), and that address — not the numeric value — is what reaches the
library.  The forwarded value is the allocator's next address, independent
of the argument; at a heap whose next slot is 4096 and argument Fixnum 5,
the library receives 4096, not 5 (the Fixnum 5 has `VALUE` bits 11). -/
theorem setJoystickTreshold_forwards_heap_address :
    (∀ (h : Heap) (t : RValue),
      (Window_SetJoystickTreshold h t).2 =
        Outcome.ok [Effect.setJoystickTreshold h.nextAddr] RValue.qnil) ∧
    (Window_SetJoystickTreshold ⟨4096⟩ (RValue.fixnum 5)).2 =
      Outcome.ok [Effect.setJoystickTreshold 4096] RValue.qnil ∧
    (4096 : Nat) ≠ 5 ∧
    valueBits (RValue.fixnum 5) = 11 := by
  refine ⟨fun h t => rfl, rfl, by decide, by decide⟩

/-- C4: `enableKeyRepeat`, `setActive` and `show` forward `true` for
`Qtrue`, `false` for `Qfalse`, and raise `TypeError` with message
"Expected true or false" — making no library call — for every other
value. -/
theorem booleanFlag_coercion (v : RValue)
    (h1 : v ≠ RValue.qtrue) (h2 : v ≠ RValue.qfalse) :
    Window_EnableKeyRepeat RValue.qtrue = Outcome.ok [Effect.enableKeyRepeat true] RValue.qnil ∧
    Window_EnableKeyRepeat RValue.qfalse = Outcome.ok [Effect.enableKeyRepeat false] RValue.qnil ∧
    Window_SetActive RValue.qtrue = Outcome.ok [Effect.setActive true] RValue.qnil ∧
    Window_SetActive RValue.qfalse = Outcome.ok [Effect.setActive false] RValue.qnil ∧
    Window_Show RValue.qtrue = Outcome.ok [Effect.show true] RValue.qnil ∧
    Window_Show RValue.qfalse = Outcome.ok [Effect.show false] RValue.qnil ∧
    Window_EnableKeyRepeat v = Outcome.err (RubyError.typeError "Expected true or false") ∧
    Window_SetActive v = Outcome.err (RubyError.typeError "Expected true or false") ∧
    Window_Show v = Outcome.err (RubyError.typeError "Expected true or false") := by
  refine ⟨rfl, rfl, rfl, rfl, rfl, rfl, ?_, ?_, ?_⟩ <;>
    cases v <;> first | rfl | exact absurd rfl h1 | exact absurd rfl h2

/-- Witness for C4 at the concrete non-boolean value `Qnil`. -/
theorem booleanFlag_coercion_witness :
    Window_EnableKeyRepeat RValue.qnil = Outcome.err (RubyError.typeError "Expected true or false") :=
  (booleanFlag_coercion RValue.qnil (by decide) (by decide)).2.2.2.2.2.2.1

/-- C6: `getEvent` returns `Qnil` exactly when the library's poll reports
no pending event; when the poll fills in an event `e`, the returned
`SFML::Event` object carries exactly `e` (the binding copies the whole
struct with `*rubyRawEvent = event`). -/
theorem getEvent_nil_iff_no_pending (p : Option SfEvent) :
    (Window_GetEvent p = RValue.qnil ↔ p = none) ∧
    (∀ e : SfEvent, p = some e → Window_GetEvent p = RValue.eventObj e) := by
  constructor
  · cases p <;> simp [Window_GetEvent]
  · rintro e rfl
    rfl

/-- Witness for C6 at a concrete pending event. -/
theorem getEvent_nil_iff_no_pending_witness :
    Window_GetEvent (some ⟨1, 2⟩) = RValue.eventObj ⟨1, 2⟩ :=
  (getEvent_nil_iff_no_pending (some ⟨1, 2⟩)).2 ⟨1, 2⟩ rfl

/-- C9: `getInput` and `getSettings` wrap the window-owned `sf::Input` and
`sf::ContextSettings` pointers with `Data_Wrap_Struct( klass, 0, 0, ... )`,
i.e. with no free function, so finalizing the returned wrapper runs no
callback and never deletes the library-owned object. -/
theorem libraryOwned_wrappers_have_no_free (self : Nat) :
    (Window_GetInput self).free = none ∧
    (Window_GetSettings self).free = none ∧
    finalizeWrapped (Window_GetInput self) = [] ∧
    finalizeWrapped (Window_GetSettings self) = [] ∧
    (Window_GetInput self).ptr = WrappedPtr.inputOf self ∧
    (Window_GetSettings self).ptr = WrappedPtr.settingsOf self :=
  ⟨rfl, rfl, rfl, rfl, rfl, rfl⟩

/-- C10: `setPosition`, `setSize`, `setCursorPosition` and
`setFramerateLimit` coerce every Fixnum argument with `FIX2UINT`: no error
is raised for any integer (negative included) and the value forwarded to
the library is the argument reduced modulo `2^32` as an unsigned integer. -/
theorem fix2uint_reduces_mod_two_pow_32 (x y w h cx cy l : Int) :
    Window_SetPosition (RValue.fixnum x) (RValue.fixnum y) =
      Outcome.ok [Effect.setPosition ((x % (2 ^ 32)).toNat) ((y % (2 ^ 32)).toNat)] RValue.qnil ∧
    Window_SetSize (RValue.fixnum w) (RValue.fixnum h) =
      Outcome.ok [Effect.setSize ((w % (2 ^ 32)).toNat) ((h % (2 ^ 32)).toNat)] RValue.qnil ∧
    Window_SetCursorPosition (RValue.fixnum cx) (RValue.fixnum cy) =
      Outcome.ok [Effect.setCursorPosition ((cx % (2 ^ 32)).toNat) ((cy % (2 ^ 32)).toNat)] RValue.qnil ∧
    Window_SetFramerateLimit (RValue.fixnum l) =
      Outcome.ok [Effect.setFramerateLimit ((l % (2 ^ 32)).toNat)] RValue.qnil :=
  ⟨rfl, rfl, rfl, rfl⟩

/-- C5: for `Create` with 2..4 arguments, the first argument whose class
fails its `VALIDATE_CLASS` check (against `VideoMode`, `String`, `Fixnum`,
`ContextSettings` in positional order) makes the binding raise a
`TypeError` naming that position; the raise happens before the single
`object->Create(...)` call, so the outcome carries no library-call effects
and the window is untouched. -/
theorem create_validates_before_library_call
    (args : List RValue) (c : RClass) (nm : String)
    (hlen : args.length = 2 ∨ args.length = 3 ∨ args.length = 4)
    (hm : firstMismatch args (createExpected.take args.length) = some (c, nm)) :
    Window_Create args =
      Outcome.err (RubyError.typeError (nm ++ " argument must be instance of " ++ c.toS)) := by
  rcases args with _ | ⟨a0, _ | ⟨a1, _ | ⟨a2, _ | ⟨a3, _ | ⟨a4, rest⟩⟩⟩⟩⟩
  · simp at hlen
  · simp at hlen
  · clear hlen
    simp only [List.length_cons, List.length_nil, createExpected, List.take,
      firstMismatch] at hm
    by_cases h0 : CLASS_OF a0 = RClass.videoModeClass
    · rw [if_pos h0] at hm
      by_cases h1 : CLASS_OF a1 = RClass.stringClass
      · rw [if_pos h1] at hm
        simp [firstMismatch] at hm
      · rw [if_neg h1] at hm
        simp only [Option.some.injEq, Prod.mk.injEq] at hm
        obtain ⟨rfl, rfl⟩ := hm
        simp [Window_Create, validateCheck, h0, h1]
    · rw [if_neg h0] at hm
      simp only [Option.some.injEq, Prod.mk.injEq] at hm
      obtain ⟨rfl, rfl⟩ := hm
      simp [Window_Create, validateCheck, h0]
  · clear hlen
    simp only [List.length_cons, List.length_nil, createExpected, List.take,
      firstMismatch] at hm
    by_cases h0 : CLASS_OF a0 = RClass.videoModeClass
    · rw [if_pos h0] at hm
      by_cases h1 : CLASS_OF a1 = RClass.stringClass
      · rw [if_pos h1] at hm
        by_cases h2 : CLASS_OF a2 = RClass.fixnumClass
        · rw [if_pos h2] at hm
          simp [firstMismatch] at hm
        · rw [if_neg h2] at hm
          simp only [Option.some.injEq, Prod.mk.injEq] at hm
          obtain ⟨rfl, rfl⟩ := hm
          simp [Window_Create, validateCheck, h0, h1, h2]
      · rw [if_neg h1] at hm
        simp only [Option.some.injEq, Prod.mk.injEq] at hm
        obtain ⟨rfl, rfl⟩ := hm
        simp [Window_Create, validateCheck, h0, h1]
    · rw [if_neg h0] at hm
      simp only [Option.some.injEq, Prod.mk.injEq] at hm
      obtain ⟨rfl, rfl⟩ := hm
      simp [Window_Create, validateCheck, h0]
  · clear hlen
    simp only [List.length_cons, List.length_nil, createExpected, List.take,
      firstMismatch] at hm
    by_cases h0 : CLASS_OF a0 = RClass.videoModeClass
    · rw [if_pos h0] at hm
      by_cases h1 : CLASS_OF a1 = RClass.stringClass
      · rw [if_pos h1] at hm
        by_cases h2 : CLASS_OF a2 = RClass.fixnumClass
        · rw [if_pos h2] at hm
          by_cases h3 : CLASS_OF a3 = RClass.contextSettingsClass
          · rw [if_pos h3] at hm
            simp [firstMismatch] at hm
          · rw [if_neg h3] at hm
            simp only [Option.some.injEq, Prod.mk.injEq] at hm
            obtain ⟨rfl, rfl⟩ := hm
            simp [Window_Create, validateCheck, h0, h1, h2, h3]
        · rw [if_neg h2] at hm
          simp only [Option.some.injEq, Prod.mk.injEq] at hm
          obtain ⟨rfl, rfl⟩ := hm
          simp [Window_Create, validateCheck, h0, h1, h2]
      · rw [if_neg h1] at hm
        simp only [Option.some.injEq, Prod.mk.injEq] at hm
        obtain ⟨rfl, rfl⟩ := hm
        simp [Window_Create, validateCheck, h0, h1]
    · rw [if_neg h0] at hm
      simp only [Option.some.injEq, Prod.mk.injEq] at hm
      obtain ⟨rfl, rfl⟩ := hm
      simp [Window_Create, validateCheck, h0]
  · simp at hlen

/-- Witness for C5: a two-argument `Create` whose first argument is a
Fixnum rather than a `VideoMode`. -/
theorem create_validates_before_library_call_witness :
    Window_Create [RValue.fixnum 0, RValue.rstring "t"] =
      Outcome.err (RubyError.typeError ("first" ++ " argument must be instance of " ++
        RClass.toS RClass.videoModeClass)) :=
  create_validates_before_library_call [RValue.fixnum 0, RValue.rstring "t"]
    RClass.videoModeClass "first" (Or.inl rfl) rfl

/-- C8: whenever `Window_New` returns normally it has made exactly one
`new sf::Window(...)` allocation and wraps the object with
`Data_Wrap_Struct( aKlass, 0, Window_Free, object )`, so finalizing the
wrapper runs `Window_Free`, a single `delete`. -/
theorem windowNew_pairs_alloc_with_window_free
    (args : List RValue) (fx : List Effect) (w : Wrapped)
    (hok : Window_New args = Outcome.ok fx w) :
    w.free = some FreeFn.windowFree ∧
    countWindowAllocs fx = 1 ∧
    finalizeWrapped w = [FreeFn.windowFree] ∧
    runFreeFn FreeFn.windowFree = [Effect.deleteWindow] := by
  rcases args with _ | ⟨a0, _ | ⟨a1, _ | ⟨a2, _ | ⟨a3, _ | ⟨a4, rest⟩⟩⟩⟩⟩ <;>
    simp only [Window_New] at hok <;>
    (try cases hok) <;>
    (repeat' split at hok) <;>
    (try cases hok) <;>
    exact ⟨rfl, rfl, rfl, rfl⟩

/-- Witness for C8 at a concrete two-argument constructor call. -/
theorem windowNew_pairs_alloc_with_window_free_witness :
    (⟨RClass.windowClass, none, some FreeFn.windowFree, WrappedPtr.freshWindow⟩ : Wrapped).free =
      some FreeFn.windowFree ∧
    countWindowAllocs [Effect.constructWindow2 ⟨800, 600, 32⟩ "title"] = 1 ∧
    finalizeWrapped (⟨RClass.windowClass, none, some FreeFn.windowFree,
      WrappedPtr.freshWindow⟩ : Wrapped) = [FreeFn.windowFree] ∧
    runFreeFn FreeFn.windowFree = [Effect.deleteWindow] :=
  windowNew_pairs_alloc_with_window_free
    [RValue.videoModeObj ⟨800, 600, 32⟩, RValue.rstring "title"] _ _ rfl

/-- Flattening a list whose elements are all Fixnums leaves it unchanged. -/
theorem rflattenList_map_fixnum (px : List Int) :
    rflattenList (px.map RValue.fixnum) = px.map RValue.fixnum := by
  induction px with
  | nil => rfl
  | cons x xs ih => simp [rflattenList, rflattenElem, ih]

/-- `NUM2CHR` on a Fixnum inside C `int` range: the value modulo 256. -/
theorem NUM2CHR_fixnum_ok (v : Int) (h1 : -(2 ^ 31) ≤ v) (h2 : v < 2 ^ 31) :
    NUM2CHR (RValue.fixnum v) = Except.ok ((v % 256).toNat) := by
  have hc : -(2 ^ 31) ≤ v ∧ v < 2 ^ 31 := ⟨h1, h2⟩
  simp only [NUM2CHR, NUM2INT, if_pos hc, Except.map]

/-- `getD` through `map RValue.fixnum`. -/
theorem getD_map_fixnum (px : List Int) (i : Nat) (hi : i < px.length) :
    (px.map RValue.fixnum).getD i RValue.qnil = RValue.fixnum (px.getD i 0) := by
  rw [List.getD_eq_getElem _ _ (by simpa using hi), List.getD_eq_getElem _ _ hi,
    List.getElem_map]

/-- The icon fill loop succeeds on in-range Fixnum pixel data, producing
exactly the bytes `value mod 256`. -/
theorem fillIcon_ok (px : List Int) (n : Nat) (idx : Nat)
    (hle : idx + n ≤ px.length)
    (hrange : ∀ x ∈ px, -(2 ^ 31) ≤ x ∧ x < 2 ^ 31) :
    fillIcon (px.map RValue.fixnum) idx n =
      Except.ok ((List.range n).map (fun i => (((px.getD (idx + i) 0) % 256).toNat))) := by
  induction n generalizing idx with
  | zero => rfl
  | succ n ih =>
      have hidx : idx < px.length := by omega
      have hmem : px.getD idx 0 ∈ px := by
        rw [List.getD_eq_getElem _ _ hidx]
        exact List.getElem_mem hidx
      obtain ⟨hr1, hr2⟩ := hrange _ hmem
      rw [fillIcon, rbAryEntry, getD_map_fixnum px idx hidx, NUM2CHR_fixnum_ok _ hr1 hr2,
        ih (idx + 1) (by omega)]
      rw [List.range_succ_eq_map]
      refine congrArg Except.ok ?_
      simp only [List.map_cons, List.map_map, Nat.add_zero, List.cons.injEq, true_and]
      refine List.map_congr_left fun i _ => ?_
      have hplus : idx + 1 + i = idx + (i + 1) := by omega
      simp [Function.comp, hplus]

/-- `FIX2UINT` on a nonnegative Fixnum below `2^32` is the identity. -/
theorem FIX2UINT_ofNat (w : Nat) (hw : w < 2 ^ 32) :
    FIX2UINT (RValue.fixnum (Int.ofNat w)) = w := by
  simp only [FIX2UINT, Int.ofNat_eq_natCast]
  omega

/-- C7 (amended): for `setIcon(width, height, pixels)` with the flattened
pixel array holding at least `width*height*4` entries, each a Fixnum in C
`int` range, and `width`, `height`, `width*height*4` below `2^32`, the byte
buffer passed to the library's `SetIcon` has length `width*height*4`, its
entry at index `i` is the numeric value of the flattened entry at index `i`
reduced modulo 256 (`NUM2CHR` truncates to one byte), and the temporary
buffer is freed after the forwarding call (the trace is allocate, `SetIcon`,
free, in that order). -/
theorem setIcon_buffer_mod256 (w h : Nat) (px : List Int)
    (hw : w < 2 ^ 32) (hh : h < 2 ^ 32)
    (hsize : w * h * 4 < 2 ^ 32)
    (hlen : w * h * 4 ≤ px.length)
    (hrange : ∀ x ∈ px, -(2 ^ 31) ≤ x ∧ x < 2 ^ 31) :
    Window_SetIcon (RValue.fixnum (Int.ofNat w)) (RValue.fixnum (Int.ofNat h))
        (RValue.rarray (px.map RValue.fixnum)) =
      ([Effect.allocBytes (w * h * 4),
        Effect.setIcon w h
          ((List.range (w * h * 4)).map (fun i => (((px.getD i 0) % 256).toNat))),
        Effect.freeBytes], none) ∧
    ((List.range (w * h * 4)).map (fun i => (((px.getD i 0) % 256).toNat))).length =
      w * h * 4 ∧
    ∀ i, i < w * h * 4 →
      ((List.range (w * h * 4)).map (fun i => (((px.getD i 0) % 256).toNat))).getD i 0 =
        ((px.getD i 0) % 256).toNat := by
  have hW := FIX2UINT_ofNat w hw
  have hH := FIX2UINT_ofNat h hh
  refine ⟨?_, by simp, ?_⟩
  · simp only [Window_SetIcon, hW, hH, rbFlatten, rflattenList_map_fixnum,
      Nat.mod_eq_of_lt hsize, fillIcon_ok px (w * h * 4) 0 (by omega) hrange]
    simp
  · intro i hi
    rw [List.getD_eq_getElem _ _ (by simpa using hi)]
    simp

/-- C7 counterexample: with width = height = 1 and flattened pixel entries
[256, 0, 0, 0] (so at least `1*1*4` entries), the byte the library receives
at index 0 is 0 — the entry's numeric value 256 reduced modulo 256 — not
256 itself, refuting the claim that each buffer entry equals the entry's
numeric value. -/
theorem setIcon_entry_not_numeric_value :
    Window_SetIcon (RValue.fixnum 1) (RValue.fixnum 1)
        (RValue.rarray [RValue.fixnum 256, RValue.fixnum 0, RValue.fixnum 0, RValue.fixnum 0]) =
      ([Effect.allocBytes 4, Effect.setIcon 1 1 [0, 0, 0, 0], Effect.freeBytes], none) ∧
    (0 : Nat) ≠ 256 := by
  exact ⟨by decide, by decide⟩

/-- Witness for C7 (amended) at a concrete 1x1 icon with pixel bytes
[1, 2, 3, 4]. -/
theorem setIcon_buffer_mod256_witness :
    Window_SetIcon (RValue.fixnum (Int.ofNat 1)) (RValue.fixnum (Int.ofNat 1))
        (RValue.rarray ([(1 : Int), 2, 3, 4].map RValue.fixnum)) =
      ([Effect.allocBytes (1 * 1 * 4),
        Effect.setIcon 1 1
          ((List.range (1 * 1 * 4)).map
            (fun i => ((([(1 : Int), 2, 3, 4].getD i 0) % 256).toNat))),
        Effect.freeBytes], none) :=
  (setIcon_buffer_mod256 1 1 [1, 2, 3, 4] (by decide) (by decide) (by decide) (by decide)
    (by decide)).1
